import Mathlib

/-!
Verification of the object-storage facade of `src/DE/C2_W1_Lab_3_S3.ipynb`.

The notebook defines a set of stateless operations over a remote object
storage service (Amazon S3 through boto3): `create_s3_bucket`,
`upload_file_to_s3`, `download_object_from_s3`, `s3_public_access_setup`,
`s3_put_bucket_policy`, `configure_bucket_versioning`,
`list_objects_in_folder`, `list_object_versions` and `s3_delete_bucket`.
The remote service itself is not part of the repository, so its semantics
(bucket state, versioning, delete markers, listing, truncation) are
modelled from the specification's data-model and operation descriptions;
the facade functions themselves are translated from the notebook cells.

Conventions of the embedding:
  * byte payloads are `List Nat`;
  * the local filesystem is an association list from paths to payloads,
    most recent write first;
  * a remote call that can raise is represented by its outcome
    `Except String Unit`; a facade function without a try/except block
    propagates the error value, one with a try/except block converts it
    into printed lines;
  * the service's listing responses are capped by a page size (S3's
    MaxKeys bound): a response is truncated when the bucket holds more
    entries than one page returns.
-/

/-- Byte payload of an object or a local file. -/
abbrev Payload := List Nat

/-- The local filesystem: paths with their contents, most recent write first. -/
abbrev Fs := List (String × Payload)

/-- Read the contents at a path, `none` when the path does not exist. -/
def fsRead (fs : Fs) (path : String) : Option Payload :=
  (fs.find? (fun e => e.1 == path)).map (·.2)

/-- Write contents at a path (shadows any earlier write). -/
def fsWrite (fs : Fs) (path : String) (p : Payload) : Fs :=
  (path, p) :: fs

/-- Modelled from the spec: the bucket's versioning status, a flag owned by
the remote service (`Unversioned → Enabled → Suspended`). -/
inductive VersioningStatus
  | unversioned
  | enabled
  | suspended
deriving DecidableEq, Repr

/-- Modelled from the spec: a retained object version — key, version id,
immutable payload snapshot and the "is latest" flag. -/
structure ObjectVersion where
  key : String
  versionId : Nat
  payload : Payload
  isLatest : Bool
deriving DecidableEq, Repr

/-- Modelled from the spec: a delete marker, the pseudo-version created when
a key is deleted under a versioned bucket. -/
structure DeleteMarker where
  key : String
  versionId : Nat
  isLatest : Bool
deriving DecidableEq, Repr

/-- Modelled from the spec: the remote state of one bucket — its versioning
status, its retained versions, its delete markers and a counter from which
the service mints fresh version ids. -/
structure Bucket where
  versioning : VersioningStatus := .unversioned
  versions : List ObjectVersion := []
  markers : List DeleteMarker := []
  nextId : Nat := 0
deriving DecidableEq, Repr

/-- The (key, version id) identity of a retained version. -/
def versionPair (v : ObjectVersion) : String × Nat :=
  (v.key, v.versionId)

/-- The (key, version id) identity of a delete marker. -/
def markerPair (m : DeleteMarker) : String × Nat :=
  (m.key, m.versionId)

/-- A service-maintained invariant: all (key, version id) pairs in a bucket,
across versions and delete markers alike, are pairwise distinct. -/
def Bucket.wf (b : Bucket) : Prop :=
  (b.versions.map versionPair ++ b.markers.map markerPair).Nodup

instance (b : Bucket) : Decidable b.wf := by
  unfold Bucket.wf
  infer_instance

/-- Literal string-prefix test, on the character lists of the two strings. -/
def keyHasPrefix (p k : String) : Bool :=
  p.data.isPrefixOf k.data

/-- A key filter as boto3 receives it: listing calls may carry a Prefix
argument or omit it; an omitted filter matches every key. -/
def keyMatches (prefix_key : Option String) (k : String) : Bool :=
  match prefix_key with
  | none => true
  | some p => keyHasPrefix p k

/-- Demote a version of the given key from "latest". -/
def demoteVersion (key : String) (v : ObjectVersion) : ObjectVersion :=
  if v.key = key then { v with isLatest := false } else v

/-- Demote a delete marker of the given key from "latest". -/
def demoteMarker (key : String) (m : DeleteMarker) : DeleteMarker :=
  if m.key = key then { m with isLatest := false } else m

/-- Modelled from the spec: the service's put-object call. Overwrites any
existing object at that key — creating a new retained version if versioning
is enabled on the bucket, otherwise overwriting in place — and in either
case the new payload becomes the key's latest, so any delete marker at the
key stops being latest. -/
def serviceUpload (b : Bucket) (key : String) (payload : Payload) : Bucket :=
  let newV : ObjectVersion :=
    { key := key, versionId := b.nextId, payload := payload, isLatest := true }
  match b.versioning with
  | .enabled =>
      { b with
        versions := newV :: b.versions.map (demoteVersion key),
        markers := b.markers.map (demoteMarker key),
        nextId := b.nextId + 1 }
  | _ =>
      { b with
        versions := newV :: b.versions.filter (fun v => !(decide (v.key = key))),
        markers := b.markers.map (demoteMarker key),
        nextId := b.nextId + 1 }

/-- Whether the key is hidden by a latest delete marker. -/
def latestMarker (b : Bucket) (key : String) : Bool :=
  b.markers.any (fun m => m.key == key && m.isLatest)

/-- Modelled from the spec: the service's get-object call — the current
(latest, non-deleted) payload of the key, `none` when the key has no latest
version or is hidden by a latest delete marker. -/
def serviceGetObject (b : Bucket) (key : String) : Option Payload :=
  if latestMarker b key then none
  else (b.versions.find? (fun v => v.key == key && v.isLatest)).map (·.payload)

/-- Modelled from the spec: the current object keys of the bucket — keys of
latest retained versions not hidden by a latest delete marker. -/
def currentKeys (b : Bucket) : List String :=
  ((b.versions.filter (fun v => v.isLatest)).map (·.key)).filter
    (fun k => !latestMarker b k)

/-- Modelled from the spec: the service's list-objects call — the current
keys that start with the given literal key filter, in lexicographic order. -/
def serviceListObjects (b : Bucket) (prefix_key : String) : List String :=
  List.insertionSort (· ≤ ·) ((currentKeys b).filter (keyHasPrefix prefix_key))

/-- One response of the service's list-object-versions call: the retained
versions and the delete markers it returned, and whether the response was
truncated (more entries exist than the page returned). -/
structure ListVersionsResponse where
  versionsOut : List ObjectVersion
  deleteMarkers : List DeleteMarker
  isTruncated : Bool
deriving DecidableEq, Repr

/-- Modelled from the spec: one page of the service's list-object-versions
call. The filter applies to the whole bucket; at most `pageSize` entries of
each category are returned (S3's MaxKeys bound), and the response is marked
truncated when entries were left out. -/
def serviceListVersionsPage (b : Bucket) (prefix_key : Option String)
    (pageSize : Nat) : ListVersionsResponse :=
  let vs := b.versions.filter (fun v => keyMatches prefix_key v.key)
  let ms := b.markers.filter (fun m => keyMatches prefix_key m.key)
  { versionsOut := vs.take pageSize,
    deleteMarkers := ms.take pageSize,
    isTruncated := decide (pageSize < vs.length) || decide (pageSize < ms.length) }

/-- Modelled from the spec: the service's delete-object call with an explicit
version id — removes the retained version or delete marker carrying that
(key, version id) pair. -/
def serviceDeleteVersion (b : Bucket) (key : String) (version_id : Nat) : Bucket :=
  { b with
    versions := b.versions.filter (fun v => !(decide (versionPair v = (key, version_id)))),
    markers := b.markers.filter (fun m => !(decide (markerPair m = (key, version_id)))) }

/-- The facade's error taxonomy, as far as the claims need it. -/
inductive StorageError
  | bucketNotEmpty
deriving DecidableEq, Repr

/-- Modelled from the spec: the service's delete-bucket call — succeeds only
when zero objects, versions and delete markers remain. -/
def serviceDeleteBucket (b : Bucket) : Except StorageError Unit :=
  if b.versions.isEmpty && b.markers.isEmpty then .ok () else .error .bucketNotEmpty

/-- From cell "BUCKET_NAME = 'de-c2w1lab3-730073446073'". -/
def BUCKET_NAME : String :=
  "de-c2w1lab3-730073446073"

/-- From cell "AWS_DEFAULT_REGION = 'us-east-1'". -/
def AWS_DEFAULT_REGION : String :=
  "us-east-1"

/-- The body the facade's create-bucket call sends: `create_bucket(Bucket=bucket_name)`
passes the bucket name and nothing else (no location constraint). -/
structure CreateBucketRequest where
  Bucket : String
deriving DecidableEq, Repr

/-- `create_s3_bucket(bucket_name, region)` from the notebook. It builds the
client with `region_name=region`, sends `create_bucket(Bucket=bucket_name)`,
and wraps the call in try/except: on success it prints a success line naming
the bucket and the region, on a remote error it prints "An error occurred"
and never re-raises. The result records (client region, request body sent,
outcome at the caller: `Except.ok printedLines` since nothing escapes). -/
def create_s3_bucket (bucket_name region : String) (remote : Except String Unit) :
    Option String × CreateBucketRequest × Except String (List String) :=
  (some region,
   { Bucket := bucket_name },
   match remote with
   | .ok _ =>
       .ok ["S3 bucket '" ++ bucket_name ++ "' created successfully in region '"
              ++ region ++ "'."]
   | .error e => .ok ["An error occurred: " ++ e])

/-- State semantics of `upload_file_to_s3(local_file_path, bucket_name, object_key)`:
read the local file and put its payload at the object key; the call is wrapped
in try/except, so a failure (here: unreadable local path) is only printed and
the bucket is left unchanged. Returns the bucket after the call and the
printed lines. -/
def upload_file_to_s3 (fs : Fs) (b : Bucket)
    (local_file_path bucket_name object_key : String) : Bucket × List String :=
  match fsRead fs local_file_path with
  | some payload =>
      (serviceUpload b object_key payload,
       ["File " ++ local_file_path ++ " uploaded to s3://" ++ bucket_name ++ "/"
          ++ object_key ++ " successfully."])
  | none =>
      (b, ["Error uploading file to S3: unable to read " ++ local_file_path])

/-- Exception boundary of `upload_file_to_s3`: the remote call sits inside
try/except, so every remote outcome becomes printed lines (`Except.ok`),
never a propagated exception. -/
def upload_file_to_s3_outcome (local_file_path bucket_name object_key : String)
    (remote : Except String Unit) : Except String (List String) :=
  match remote with
  | .ok _ =>
      .ok ["File " ++ local_file_path ++ " uploaded to s3://" ++ bucket_name ++ "/"
             ++ object_key ++ " successfully."]
  | .error e => .ok ["Error uploading file to S3: " ++ e]

/-- State semantics of `download_object_from_s3(bucket_name, object_key, local_file_path)`:
fetch the current payload at the key and write it to the local path; the call
is wrapped in try/except, so a failure (here: no current object at the key)
is only printed and the filesystem is left unchanged. Returns the filesystem
after the call and the printed lines. -/
def download_object_from_s3 (b : Bucket) (bucket_name object_key local_file_path : String)
    (fs : Fs) : Fs × List String :=
  match serviceGetObject b object_key with
  | some payload => (fsWrite fs local_file_path payload, [])
  | none => (fs, ["Error downloading or printing JSON file: object not found"])

/-- Exception boundary of `download_object_from_s3`: try/except around the
call, nothing printed on success, the error printed on failure, never a
propagated exception. -/
def download_object_from_s3_outcome (remote : Except String Unit) :
    Except String (List String) :=
  match remote with
  | .ok _ => .ok []
  | .error e => .ok ["Error downloading or printing JSON file: " ++ e]

/-- The four-toggle public access block record of the notebook. -/
structure AccessConfiguration where
  BlockPublicAcls : Bool
  IgnorePublicAcls : Bool
  BlockPublicPolicy : Bool
  RestrictPublicBuckets : Bool
deriving DecidableEq, Repr

/-- The `public_access_configuration` value the notebook passes (all four
toggles off). -/
def public_access_configuration : AccessConfiguration :=
  { BlockPublicAcls := false, IgnorePublicAcls := false,
    BlockPublicPolicy := false, RestrictPublicBuckets := false }

/-- Exception boundary of `s3_public_access_setup(bucket_name, public_access_block_configuration)`:
the source has no try/except around `put_public_access_block`, so a remote
error propagates to the caller unchanged; on success nothing is printed. -/
def s3_public_access_setup (bucket_name : String)
    (public_access_block_configuration : AccessConfiguration)
    (remote : Except String Unit) : Except String (List String) :=
  match remote with
  | .ok _ => .ok []
  | .error e => .error e

/-- Exception boundary of `s3_put_bucket_policy(bucket_name, policy)`: the
source has no try/except around `put_bucket_policy`, so a remote error
propagates; on success the serialized policy is attached and the service's
acknowledgment is returned (printed by the driver cell). -/
def s3_put_bucket_policy (bucket_name policy : String)
    (remote : Except String Unit) : Except String (List String) :=
  match remote with
  | .ok _ => .ok []
  | .error e => .error e

/-- The versioning status the service stores for a given
`VersioningConfiguration = {'Status': s}` value. -/
def statusOfConfig (s : String) : VersioningStatus :=
  if s = "Enabled" then .enabled
  else if s = "Suspended" then .suspended
  else .unversioned

/-- State semantics of `configure_bucket_versioning(bucket_name, versioning_config)`:
`put_bucket_versioning` replaces the bucket's versioning status. -/
def configure_bucket_versioning (b : Bucket) (status : String) : Bucket :=
  { b with versioning := statusOfConfig status }

/-- Exception boundary of `configure_bucket_versioning`: the source has no
try/except around `put_bucket_versioning`, so a remote error propagates. -/
def configure_bucket_versioning_outcome (remote : Except String Unit) :
    Except String (List String) :=
  match remote with
  | .ok _ => .ok []
  | .error e => .error e

/-- `list_objects_in_folder(bucket_name, prefix_key)` from the notebook:
lists the current keys starting with the key filter via `list_objects_v2`;
when the response has contents it prints a header and each key, and when it
has none it prints "No objects found" (no error). Returns the printed lines. -/
def list_objects_in_folder (b : Bucket) (bucket_name prefix_key : String) :
    List String :=
  let contents := serviceListObjects b prefix_key
  if contents.isEmpty then
    ["No objects found in folder '" ++ prefix_key ++ "'."]
  else
    ("Objects with a key that starts with '" ++ prefix_key ++ "':") :: contents

/-- Exception boundary of `list_objects_in_folder`: no try/except in the
source, so a remote error propagates. -/
def list_objects_in_folder_outcome (remote : Except String Unit) :
    Except String (List String) :=
  match remote with
  | .ok _ => .ok []
  | .error e => .error e

/-- The lines the source's `list_object_versions` prints for one retained
version (the last-modified service timestamp is not modelled; the line
itself is kept without it). -/
def versionLines (v : ObjectVersion) : List String :=
  ["Object Key: " ++ v.key,
   "Object Version Id: " ++ toString v.versionId,
   "Is Latest: " ++ toString v.isLatest,
   ""]

/-- `list_object_versions(bucket_name, prefix_key)` from the notebook: one
`list_object_versions` call with the key filter, then a loop over
`response.get('Versions', [])` printing each retained version. The
response's `DeleteMarkers` entry is never read, so no delete marker is
printed. Returns the printed lines. -/
def list_object_versions (b : Bucket) (bucket_name prefix_key : String)
    (pageSize : Nat) : List String :=
  let response := serviceListVersionsPage b (some prefix_key) pageSize
  (response.versionsOut.map versionLines).flatten

/-- Exception boundary of `list_object_versions`: no try/except in the
source, so a remote error propagates. -/
def list_object_versions_outcome (remote : Except String Unit) :
    Except String (List String) :=
  match remote with
  | .ok _ => .ok []
  | .error e => .error e

/-- The remote calls `s3_delete_bucket` can issue, for call-trace reasoning. -/
inductive S3Call
  | listVersions (bucket : String)
  | deleteObject (bucket : String) (key : String) (version_id : Nat)
  | deleteBucket (bucket : String)
deriving DecidableEq, Repr

/-- The (key, version id) pairs the purge loops of `s3_delete_bucket` walk:
first every pair of `response.get('Versions', [])`, then every pair of
`response.get('DeleteMarkers', [])`. -/
def purgeCalls (resp : ListVersionsResponse) : List (String × Nat) :=
  resp.versionsOut.map versionPair ++ resp.deleteMarkers.map markerPair

/-- The remote call trace of `s3_delete_bucket(bucket_name, delete_objects)`
given the one listing response: when `delete_objects` is set, a single
`list_object_versions` call, then one `delete_object` call per listed
(key, version id) pair of both categories; in every case `delete_bucket`
is the final call. -/
def s3_delete_bucket_calls (bucket_name : String) (delete_objects : Bool)
    (resp : ListVersionsResponse) : List S3Call :=
  (if delete_objects then
      S3Call.listVersions bucket_name ::
        (purgeCalls resp).map (fun q => S3Call.deleteObject bucket_name q.1 q.2)
    else []) ++ [S3Call.deleteBucket bucket_name]

/-- Apply the delete calls for a list of (key, version id) pairs in order. -/
def applyDeletes (b : Bucket) (ps : List (String × Nat)) : Bucket :=
  ps.foldl (fun s q => serviceDeleteVersion s q.1 q.2) b

/-- The purge loops with a per-delete success predicate: each `delete_object`
call either succeeds (and the loop continues) or raises — and since the
source has no try/except, a raise aborts the remaining deletes while every
delete already performed stays performed. Returns the bucket state reached
and whether all deletes went through. -/
def purgeRun (ok : String → Nat → Bool) (b : Bucket) :
    List (String × Nat) → Bucket × Bool
  | [] => (b, true)
  | q :: rest =>
      if ok q.1 q.2 then purgeRun ok (serviceDeleteVersion b q.1 q.2) rest
      else (b, false)

/-- The purge step of `s3_delete_bucket` (the spec's
`delete_all_versions_and_markers`): one `list_object_versions` call with no
key filter, then one delete per (key, version id) pair the response listed,
versions first, delete markers second. -/
def delete_all_versions_and_markers (b : Bucket) (pageSize : Nat) : Bucket :=
  applyDeletes b (purgeCalls (serviceListVersionsPage b none pageSize))

/-- State semantics of `s3_delete_bucket(bucket_name, delete_objects)` when
every remote call succeeds: purge first when `delete_objects` is set, then
request the bucket deletion. Returns the deletion outcome and the bucket
state at the moment the deletion is requested. -/
def s3_delete_bucket (b : Bucket) (delete_objects : Bool) (pageSize : Nat) :
    Except StorageError Unit × Bucket :=
  let purged := if delete_objects then delete_all_versions_and_markers b pageSize else b
  (serviceDeleteBucket purged, purged)

/-- Exception boundary of `s3_delete_bucket`: no try/except in the source,
so a remote error (from the listing, any delete, or the bucket deletion)
propagates to the caller. -/
def s3_delete_bucket_outcome (remote : Except String Unit) :
    Except String (List String) :=
  match remote with
  | .ok _ => .ok []
  | .error e => .error e

/-- From the exercise-2 cell: the local path of the JSON file. -/
def local_file_path_json : String :=
  "data/json/delivery-stream-one-record.json"

/-- From the exercise-2 cell: the object key the JSON file is uploaded
under — note the doubled "json/json/" segment. -/
def object_key_json : String :=
  "json/json/delivery-stream-one-record.json"

/-- A small concrete bucket for instantiating the theorems: two retained
versions of the image key and one delete marker, with pairwise distinct
(key, version id) pairs. -/
def sampleBucket : Bucket :=
  { versioning := .enabled,
    versions :=
      [{ key := "images/AWS-Logo.png", versionId := 0, payload := [1], isLatest := false },
       { key := "images/AWS-Logo.png", versionId := 1, payload := [2], isLatest := true }],
    markers :=
      [{ key := "csv/ratings_ml_training_dataset.csv", versionId := 2, isLatest := true }],
    nextId := 3 }

/-- A concrete bucket whose only entry under "images/" is a delete marker. -/
def markerOnlyBucket : Bucket :=
  { versioning := .enabled,
    versions := [],
    markers := [{ key := "images/AWS-Logo.png", versionId := 5, isLatest := true }],
    nextId := 6 }

/-- helper: a latest delete marker never survives `demoteMarker` at its key. -/
theorem latestMarker_demote (ms : List DeleteMarker) (key : String) :
    (ms.map (demoteMarker key)).any (fun m => m.key == key && m.isLatest) = false := by
  rw [List.any_map, List.any_eq_false]
  intro m _
  by_cases h : m.key = key <;> simp [demoteMarker, Function.comp, h]

/-- helper: right after an upload, the uploaded payload is the current
payload of the key, whatever the bucket's versioning status. -/
theorem serviceGetObject_serviceUpload (b : Bucket) (key : String) (p : Payload) :
    serviceGetObject (serviceUpload b key p) key = some p := by
  cases hb : b.versioning <;>
    simp [serviceUpload, hb, serviceGetObject, latestMarker, List.find?_cons] <;>
    (intro x _
     by_cases h : x.key = key <;> simp [demoteMarker, h])

/-- helper: reading back a path just written yields the written payload. -/
theorem fsRead_fsWrite (fs : Fs) (path : String) (p : Payload) :
    fsRead (fsWrite fs path p) path = some p := by
  simp [fsRead, fsWrite, List.find?_cons]

/-- helper: folding the delete calls over a pair list filters the versions
down to those whose pair is not listed. -/
theorem applyDeletes_versions (ps : List (String × Nat)) (b : Bucket) :
    (applyDeletes b ps).versions
      = b.versions.filter (fun v => !(decide (versionPair v ∈ ps))) := by
  induction ps generalizing b with
  | nil => simp [applyDeletes]
  | cons q ps ih =>
      rw [applyDeletes, List.foldl_cons]
      have h := ih (serviceDeleteVersion b q.1 q.2)
      rw [applyDeletes] at h
      rw [h]
      simp only [serviceDeleteVersion, List.filter_filter]
      apply List.filter_congr
      intro v _
      by_cases h1 : versionPair v = q
      · simp [h1]
      · by_cases h2 : versionPair v ∈ ps <;> simp [h1, h2]

/-- helper: folding the delete calls over a pair list filters the delete
markers down to those whose pair is not listed. -/
theorem applyDeletes_markers (ps : List (String × Nat)) (b : Bucket) :
    (applyDeletes b ps).markers
      = b.markers.filter (fun m => !(decide (markerPair m ∈ ps))) := by
  induction ps generalizing b with
  | nil => simp [applyDeletes]
  | cons q ps ih =>
      rw [applyDeletes, List.foldl_cons]
      have h := ih (serviceDeleteVersion b q.1 q.2)
      rw [applyDeletes] at h
      rw [h]
      simp only [serviceDeleteVersion, List.filter_filter]
      apply List.filter_congr
      intro m _
      by_cases h1 : markerPair m = q
      · simp [h1]
      · by_cases h2 : markerPair m ∈ ps <;> simp [h1, h2]

/-- helper: under a duplicate-free image, the element at position `n` is not
among the images of the first `n` elements. -/
theorem getElem_not_mem_map_take {α β : Type} (f : α → β) (l : List α) (n : Nat)
    (hn : n < l.length) (hd : (l.map f).Nodup) :
    f (l.get ⟨n, hn⟩) ∉ (l.take n).map f := by
  intro hmem
  rw [List.map_take] at hmem
  obtain ⟨j, hj, hje⟩ := List.mem_iff_getElem.mp hmem
  have hjn : j < n := by
    have h2 := hj
    simp [List.length_take] at h2
    omega
  have hlt : j < (l.map f).length := by
    simp
    omega
  have hnm : n < (l.map f).length := by
    simp
    omega
  have heq : (l.map f).get ⟨j, hlt⟩ = (l.map f).get ⟨n, hnm⟩ := by
    have h3 : (List.take n (l.map f)).get ⟨j, hj⟩ = f (l.get ⟨n, hn⟩) := hje
    rw [List.get_eq_getElem, List.getElem_take] at h3
    simp only [List.get_eq_getElem, List.getElem_map]
    simp only [List.getElem_map] at h3
    simpa using h3
  have := (@List.Nodup.getElem_inj_iff _ _ hd j hlt n hnm).mp (by simpa using heq)
  omega

/-- C10: `create_s3_bucket` issues its create-bucket request carrying only
the bucket name — the request body is identical for every pair of region
arguments; the region value appears only in the client construction and in
the printed success message. -/
theorem create_bucket_request_region_independent
    (bucket_name r1 r2 : String) (remote : Except String Unit) :
    (create_s3_bucket bucket_name r1 remote).2.1
      = (create_s3_bucket bucket_name r2 remote).2.1 ∧
    (create_s3_bucket bucket_name r1 remote).2.1 = { Bucket := bucket_name } ∧
    (create_s3_bucket bucket_name r1 remote).1 = some r1 ∧
    (create_s3_bucket bucket_name r1 (Except.ok ())).2.2
      = Except.ok ["S3 bucket '" ++ bucket_name ++ "' created successfully in region '"
          ++ r1 ++ "'."] := by
  simp [create_s3_bucket]

/-- C1 counterexample: `s3_public_access_setup` does not catch remote
failures — at this concrete input a raised error propagates to the caller
unchanged, so the claim that it converts every remote failure into a
reported outcome is false. -/
theorem public_access_setup_propagates_error :
    s3_public_access_setup BUCKET_NAME public_access_configuration
        (Except.error "AccessDenied")
      = Except.error "AccessDenied" := by
  rfl

/-- C1 (amended): only the operations wrapping their remote call in
try/except — `create_s3_bucket`, `upload_file_to_s3` and
`download_object_from_s3` — convert every remote failure into a printed
outcome and never propagate; `s3_public_access_setup`,
`s3_put_bucket_policy`, `configure_bucket_versioning`,
`list_objects_in_folder`, `list_object_versions` and `s3_delete_bucket`
propagate a remote error to their caller unchanged. -/
theorem facade_error_boundaries (bn r p k pol e : String)
    (cfg : AccessConfiguration) (remote : Except String Unit) :
    ((create_s3_bucket bn r remote).2.2).isOk = true ∧
    (upload_file_to_s3_outcome p bn k remote).isOk = true ∧
    (download_object_from_s3_outcome remote).isOk = true ∧
    s3_public_access_setup bn cfg (Except.error e) = Except.error e ∧
    s3_put_bucket_policy bn pol (Except.error e) = Except.error e ∧
    configure_bucket_versioning_outcome (Except.error e) = Except.error e ∧
    list_objects_in_folder_outcome (Except.error e) = Except.error e ∧
    list_object_versions_outcome (Except.error e) = Except.error e ∧
    s3_delete_bucket_outcome (Except.error e) = Except.error e := by
  cases remote <;>
    simp [create_s3_bucket, upload_file_to_s3_outcome, download_object_from_s3_outcome,
      s3_public_access_setup, s3_put_bucket_policy, configure_bucket_versioning_outcome,
      list_objects_in_folder_outcome, list_object_versions_outcome,
      s3_delete_bucket_outcome, Except.isOk, Except.toBool]

/-- C8: the JSON upload is issued under a doubled object key — the "json/"
segment appears twice — so the key stored in the bucket for that file
begins with "json/json/". -/
theorem json_upload_doubled_key (fs : Fs) (b : Bucket) (payload : Payload)
    (h : fsRead fs local_file_path_json = some payload) :
    object_key_json = "json/" ++ "json/" ++ "delivery-stream-one-record.json" ∧
    keyHasPrefix "json/json/" object_key_json = true ∧
    ∃ v ∈ ((upload_file_to_s3 fs b local_file_path_json BUCKET_NAME
        object_key_json).1).versions,
      v.key = object_key_json ∧ keyHasPrefix "json/json/" v.key = true := by
  refine ⟨rfl, by decide, ?_⟩
  have hu : (upload_file_to_s3 fs b local_file_path_json BUCKET_NAME object_key_json).1
      = serviceUpload b object_key_json payload := by
    simp [upload_file_to_s3, h]
  rw [hu]
  refine ⟨{ key := object_key_json, versionId := b.nextId, payload := payload,
            isLatest := true }, ?_, rfl, ?_⟩
  · cases hb : b.versioning <;> simp [serviceUpload, hb]
  · show keyHasPrefix "json/json/" object_key_json = true
    decide

/-- C8 witness: the doubled-key upload at a concrete filesystem holding the
JSON file. -/
theorem json_upload_doubled_key_witness :
    object_key_json = "json/" ++ "json/" ++ "delivery-stream-one-record.json" ∧
    keyHasPrefix "json/json/" object_key_json = true ∧
    ∃ v ∈ ((upload_file_to_s3 [(local_file_path_json, [1, 2])] {} local_file_path_json
        BUCKET_NAME object_key_json).1).versions,
      v.key = object_key_json ∧ keyHasPrefix "json/json/" v.key = true :=
  json_upload_doubled_key [(local_file_path_json, [1, 2])] {} [1, 2] (by decide)

/-- C3: upload followed by download is a content round trip — when the
content at the source path equals the uploaded payload, downloading the key
afterwards yields byte-identical content at the destination path. -/
theorem upload_download_roundtrip (fs fs2 : Fs) (b : Bucket)
    (src_path dst_path bucket_name object_key : String) (payload : Payload)
    (h : fsRead fs src_path = some payload) :
    fsRead (download_object_from_s3
        ((upload_file_to_s3 fs b src_path bucket_name object_key).1)
        bucket_name object_key dst_path fs2).1 dst_path
      = some payload := by
  have hu : (upload_file_to_s3 fs b src_path bucket_name object_key).1
      = serviceUpload b object_key payload := by
    simp [upload_file_to_s3, h]
  rw [hu, download_object_from_s3, serviceGetObject_serviceUpload]
  exact fsRead_fsWrite fs2 dst_path payload

/-- C3 witness: the round trip at a concrete filesystem, bucket and key. -/
theorem upload_download_roundtrip_witness :
    fsRead (download_object_from_s3
        ((upload_file_to_s3 [("data/csv/ratings_ml_training_dataset.csv", [3, 4])] {}
            "data/csv/ratings_ml_training_dataset.csv" BUCKET_NAME
            "csv/ratings_ml_training_dataset.csv").1)
        BUCKET_NAME "csv/ratings_ml_training_dataset.csv" "downloads/out.csv" []).1
      "downloads/out.csv" = some [3, 4] :=
  upload_download_roundtrip [("data/csv/ratings_ml_training_dataset.csv", [3, 4])] [] {}
    "data/csv/ratings_ml_training_dataset.csv" "downloads/out.csv" BUCKET_NAME
    "csv/ratings_ml_training_dataset.csv" [3, 4] (by decide)

/-- C4: with versioning enabled on the bucket, uploading the same key twice
with two different payloads retains two versions with distinct version
identifiers — the most recent upload latest, the earlier one demoted. -/
theorem versioned_double_upload (b : Bucket) (key : String) (A B : Payload)
    (hAB : A ≠ B) :
    ({ key := key, versionId := b.nextId + 1, payload := B,
       isLatest := true } : ObjectVersion)
        ∈ (serviceUpload (serviceUpload (configure_bucket_versioning b "Enabled")
            key A) key B).versions ∧
    ({ key := key, versionId := b.nextId, payload := A,
       isLatest := false } : ObjectVersion)
        ∈ (serviceUpload (serviceUpload (configure_bucket_versioning b "Enabled")
            key A) key B).versions ∧
    b.nextId + 1 ≠ b.nextId := by
  refine ⟨?_, ?_, by omega⟩
  · simp [configure_bucket_versioning, statusOfConfig, serviceUpload]
  · simp [configure_bucket_versioning, statusOfConfig, serviceUpload, demoteVersion]

/-- C4 witness: two uploads of the image key with payloads [1] then [2]. -/
theorem versioned_double_upload_witness :
    ({ key := "images/AWS-Logo.png", versionId := 1, payload := [2],
       isLatest := true } : ObjectVersion)
        ∈ (serviceUpload (serviceUpload (configure_bucket_versioning {} "Enabled")
            "images/AWS-Logo.png" [1]) "images/AWS-Logo.png" [2]).versions ∧
    ({ key := "images/AWS-Logo.png", versionId := 0, payload := [1],
       isLatest := false } : ObjectVersion)
        ∈ (serviceUpload (serviceUpload (configure_bucket_versioning {} "Enabled")
            "images/AWS-Logo.png" [1]) "images/AWS-Logo.png" [2]).versions ∧
    0 + 1 ≠ 0 :=
  versioned_double_upload {} "images/AWS-Logo.png" [1] [2] (by decide)

/-- C5: `list_objects_in_folder` surfaces exactly the current object keys
having the filter as a literal string prefix, in lexicographic key order,
and a filter matching nothing is reported as "No objects found", not as an
error. -/
theorem list_objects_exact_sorted (b : Bucket) (bucket_name prefix_key : String) :
    List.Sorted (· ≤ ·) (serviceListObjects b prefix_key) ∧
    (∀ k, k ∈ serviceListObjects b prefix_key
        ↔ k ∈ currentKeys b ∧ keyHasPrefix prefix_key k = true) ∧
    (serviceListObjects b prefix_key = [] →
      list_objects_in_folder b bucket_name prefix_key
        = ["No objects found in folder '" ++ prefix_key ++ "'."]) ∧
    (serviceListObjects b prefix_key ≠ [] →
      list_objects_in_folder b bucket_name prefix_key
        = ("Objects with a key that starts with '" ++ prefix_key ++ "':")
            :: serviceListObjects b prefix_key) := by
  refine ⟨List.sorted_insertionSort _ _, ?_, ?_, ?_⟩
  · intro k
    rw [serviceListObjects, (List.perm_insertionSort _ _).mem_iff, List.mem_filter]
  · intro hempty
    simp [list_objects_in_folder, hempty]
  · intro hne
    simp [list_objects_in_folder, List.isEmpty_eq_false.mpr hne, hne]

/-- C6 counterexample: on a bucket whose only entry under "images/" is a
delete marker, the listing response carries the marker and yet
`list_object_versions` prints nothing — the delete-marker sequence is not
surfaced by the operation. -/
theorem list_object_versions_drops_markers :
    (serviceListVersionsPage markerOnlyBucket (some "images/") 10).deleteMarkers ≠ [] ∧
    list_object_versions markerOnlyBucket BUCKET_NAME "images/" 10 = [] := by
  decide

/-- C6 (amended): the listing response carries both parallel sequences, but
`list_object_versions` surfaces only the retained versions whose key starts
with the filter — its output never depends on the bucket's delete markers,
while every listed retained version is printed. -/
theorem list_object_versions_surfaces_versions_only (b : Bucket)
    (bucket_name prefix_key : String) (n : Nat) (ms : List DeleteMarker) :
    list_object_versions { b with markers := ms } bucket_name prefix_key n
      = list_object_versions { b with markers := [] } bucket_name prefix_key n ∧
    ∀ v ∈ (serviceListVersionsPage b (some prefix_key) n).versionsOut,
      ("Object Key: " ++ v.key) ∈ list_object_versions b bucket_name prefix_key n := by
  constructor
  · simp [list_object_versions, serviceListVersionsPage]
  · intro v hv
    rw [list_object_versions, List.mem_flatten]
    exact ⟨versionLines v, List.mem_map_of_mem _ hv, by simp [versionLines]⟩

/-- helper: when every delete before some failing delete succeeds, the purge
loop stops at the failure with all prior deletes applied — nothing is rolled
back. -/
theorem purgeRun_append_fail (ok : String → Nat → Bool) (b : Bucket)
    (pre : List (String × Nat)) (q : String × Nat) (rest : List (String × Nat))
    (hpre : ∀ x ∈ pre, ok x.1 x.2 = true) (hq : ok q.1 q.2 = false) :
    purgeRun ok b (pre ++ q :: rest) = (applyDeletes b pre, false) := by
  induction pre generalizing b with
  | nil => simp [purgeRun, hq, applyDeletes]
  | cons x pre ih =>
      have hx : ok x.1 x.2 = true := hpre x (by simp)
      have ihh := ih (serviceDeleteVersion b x.1 x.2) (fun y hy => hpre y (by simp [hy]))
      simp only [List.cons_append, purgeRun, hx, if_true]
      exact ihh

/-- helper: Nodup gives count one at each member, for any lawful Bool
equality. -/
theorem nodup_count_eq_one {α : Type} [BEq α] [LawfulBEq α] {a : α} {l : List α}
    (hd : l.Nodup) (ha : a ∈ l) : l.count a = 1 := by
  induction l with
  | nil => simp at ha
  | cons x l ih =>
      rw [List.nodup_cons] at hd
      rcases List.mem_cons.mp ha with h | h
      · subst h
        rw [List.count_cons]
        simp [List.count_eq_zero.mpr hd.1]
      · rw [List.count_cons]
        have hax : ¬ (x == a) = true := by
          intro hxa
          exact hd.1 ((eq_of_beq hxa) ▸ h)
        simp [ih hd.2 h, hax]

/-- helper: the call trace of a purging `s3_delete_bucket` holds exactly one
listing call. -/
theorem calls_one_listing (bucket_name : String) (resp : ListVersionsResponse) :
    (s3_delete_bucket_calls bucket_name true resp).count
      (S3Call.listVersions bucket_name) = 1 := by
  have h1 : (S3Call.listVersions bucket_name)
      ∉ (purgeCalls resp).map (fun q => S3Call.deleteObject bucket_name q.1 q.2) := by
    simp
  have h2 : (S3Call.listVersions bucket_name) ∉ [S3Call.deleteBucket bucket_name] := by
    simp
  simp only [s3_delete_bucket_calls, if_true, List.cons_append]
  rw [List.count_cons, List.count_append, List.count_eq_zero.mpr h1,
    List.count_eq_zero.mpr h2]
  simp

/-- helper: with no key filter, the versions part of a listing page is a
plain take of the bucket's versions. -/
theorem listPage_none_versions (b : Bucket) (n : Nat) :
    (serviceListVersionsPage b none n).versionsOut = b.versions.take n := by
  simp [serviceListVersionsPage, keyMatches]

/-- helper: with no key filter, the delete-marker part of a listing page is
a plain take of the bucket's delete markers. -/
theorem listPage_none_markers (b : Bucket) (n : Nat) :
    (serviceListVersionsPage b none n).deleteMarkers = b.markers.take n := by
  simp [serviceListVersionsPage, keyMatches]

/-- helper: with no key filter, a listing page is truncated exactly when the
bucket holds more versions or more delete markers than one page returns. -/
theorem listPage_none_truncated (b : Bucket) (n : Nat) :
    (serviceListVersionsPage b none n).isTruncated = true
      ↔ (n < b.versions.length ∨ n < b.markers.length) := by
  simp [serviceListVersionsPage, keyMatches]

/-- C2 counterexample: with two retained versions and a one-entry listing
page, the single response omits the newer version and the purge of
`s3_delete_bucket` never deletes it — the enumeration does not cover every
version of the bucket. -/
theorem purge_misses_unlisted_version :
    ({ key := "images/AWS-Logo.png", versionId := 1, payload := [2],
       isLatest := true } : ObjectVersion) ∈ sampleBucket.versions ∧
    ({ key := "images/AWS-Logo.png", versionId := 1, payload := [2],
       isLatest := true } : ObjectVersion)
        ∉ (serviceListVersionsPage sampleBucket none 1).versionsOut ∧
    ({ key := "images/AWS-Logo.png", versionId := 1, payload := [2],
       isLatest := true } : ObjectVersion)
        ∈ (delete_all_versions_and_markers sampleBucket 1).versions := by
  decide

/-- C2 (amended): `s3_delete_bucket` with `delete_objects` set issues one
listing call with no key filter; the purge deletes, once each, exactly the
(key, version id) pairs of both categories returned in that single
response — which is every version and delete marker of the bucket when the
response is untruncated — and only after those deletes requests the bucket
deletion; an individual delete failure aborts the remaining deletes but
never rolls back prior deletes. -/
theorem s3_delete_bucket_purge_behavior (b : Bucket) (bucket_name : String)
    (n : Nat) (hwf : b.wf)
    (hfull : (serviceListVersionsPage b none n).isTruncated = false) :
    (serviceListVersionsPage b none n).versionsOut = b.versions ∧
    (serviceListVersionsPage b none n).deleteMarkers = b.markers ∧
    (∀ q ∈ purgeCalls (serviceListVersionsPage b none n),
        (purgeCalls (serviceListVersionsPage b none n)).count q = 1) ∧
    s3_delete_bucket_calls bucket_name true (serviceListVersionsPage b none n)
      = S3Call.listVersions bucket_name ::
          ((purgeCalls (serviceListVersionsPage b none n)).map
              (fun q => S3Call.deleteObject bucket_name q.1 q.2)
            ++ [S3Call.deleteBucket bucket_name]) ∧
    ∀ (ok : String → Nat → Bool) (pre : List (String × Nat)) (q : String × Nat)
        (rest : List (String × Nat)),
      (∀ x ∈ pre, ok x.1 x.2 = true) → ok q.1 q.2 = false →
      purgeRun ok b (pre ++ q :: rest) = (applyDeletes b pre, false) := by
  have hnt : b.versions.length ≤ n ∧ b.markers.length ≤ n := by
    have h1 := hfull
    rw [Bool.eq_false_iff, ne_eq, listPage_none_truncated] at h1
    push_neg at h1
    exact h1
  have hto_v : b.versions.take n = b.versions := List.take_of_length_le hnt.1
  have hto_m : b.markers.take n = b.markers := List.take_of_length_le hnt.2
  have hpc : purgeCalls (serviceListVersionsPage b none n)
      = b.versions.map versionPair ++ b.markers.map markerPair := by
    rw [purgeCalls, listPage_none_versions, listPage_none_markers, hto_v, hto_m]
  refine ⟨by rw [listPage_none_versions, hto_v],
          by rw [listPage_none_markers, hto_m], ?_, by simp [s3_delete_bucket_calls], ?_⟩
  · intro q hq
    rw [hpc] at hq ⊢
    have hwf' : (b.versions.map versionPair ++ b.markers.map markerPair).Nodup := hwf
    exact nodup_count_eq_one hwf' hq
  · intro ok pre q rest hpre hq
    exact purgeRun_append_fail ok b pre q rest hpre hq

/-- C2 witness: the purge behavior at a concrete well-formed bucket with an
untruncated listing page. -/
theorem s3_delete_bucket_purge_behavior_witness :
    (serviceListVersionsPage sampleBucket none 5).versionsOut = sampleBucket.versions :=
  (s3_delete_bucket_purge_behavior sampleBucket BUCKET_NAME 5 (by decide) (by decide)).1

/-- C7: a bucket deletion requires zero remaining objects, versions and
delete markers — on a non-empty bucket `s3_delete_bucket` without the purge
fails with the non-empty-bucket error and the bucket survives unchanged,
while after `delete_all_versions_and_markers` has removed everything the
same deletion succeeds. -/
theorem delete_bucket_requires_empty (b : Bucket) (n : Nat)
    (hne : b.versions ≠ [] ∨ b.markers ≠ [])
    (hfull : (serviceListVersionsPage b none n).isTruncated = false) :
    s3_delete_bucket b false n = (Except.error StorageError.bucketNotEmpty, b) ∧
    (delete_all_versions_and_markers b n).versions = [] ∧
    (delete_all_versions_and_markers b n).markers = [] ∧
    s3_delete_bucket (delete_all_versions_and_markers b n) false n
      = (Except.ok (), delete_all_versions_and_markers b n) := by
  have hnt : b.versions.length ≤ n ∧ b.markers.length ≤ n := by
    have h1 := hfull
    rw [Bool.eq_false_iff, ne_eq, listPage_none_truncated] at h1
    push_neg at h1
    exact h1
  have hto_v : b.versions.take n = b.versions := List.take_of_length_le hnt.1
  have hto_m : b.markers.take n = b.markers := List.take_of_length_le hnt.2
  have hpc : purgeCalls (serviceListVersionsPage b none n)
      = b.versions.map versionPair ++ b.markers.map markerPair := by
    rw [purgeCalls, listPage_none_versions, listPage_none_markers, hto_v, hto_m]
  have hev : (delete_all_versions_and_markers b n).versions = [] := by
    rw [delete_all_versions_and_markers, applyDeletes_versions, List.filter_eq_nil_iff]
    intro v hv
    have hmem : versionPair v ∈ purgeCalls (serviceListVersionsPage b none n) := by
      rw [hpc]
      exact List.mem_append_left _ (List.mem_map_of_mem _ hv)
    simp [hmem]
  have hem : (delete_all_versions_and_markers b n).markers = [] := by
    rw [delete_all_versions_and_markers, applyDeletes_markers, List.filter_eq_nil_iff]
    intro m hm
    have hmem : markerPair m ∈ purgeCalls (serviceListVersionsPage b none n) := by
      rw [hpc]
      exact List.mem_append_right _ (List.mem_map_of_mem _ hm)
    simp [hmem]
  refine ⟨?_, hev, hem, by simp [s3_delete_bucket, serviceDeleteBucket, hev, hem]⟩
  rcases hne with h | h <;>
    simp [s3_delete_bucket, serviceDeleteBucket, List.isEmpty_eq_false.mpr h]

/-- C7 witness: the deletion of a concrete non-empty bucket fails with the
non-empty-bucket error and leaves the bucket in place. -/
theorem delete_bucket_requires_empty_witness :
    s3_delete_bucket sampleBucket false 5
      = (Except.error StorageError.bucketNotEmpty, sampleBucket) :=
  (delete_bucket_requires_empty sampleBucket 5 (Or.inl (by decide)) (by decide)).1

/-- C9: the purge of `s3_delete_bucket` issues exactly one listing call and
deletes only the pairs of that single response — whenever the response is
truncated, some version or delete marker survives the purge and the
subsequent bucket deletion fails. -/
theorem truncated_purge_leaves_residue (b : Bucket) (bucket_name : String)
    (n : Nat) (hwf : b.wf)
    (ht : (serviceListVersionsPage b none n).isTruncated = true) :
    (s3_delete_bucket_calls bucket_name true (serviceListVersionsPage b none n)).count
        (S3Call.listVersions bucket_name) = 1 ∧
    ((delete_all_versions_and_markers b n).versions ≠ []
      ∨ (delete_all_versions_and_markers b n).markers ≠ []) ∧
    (s3_delete_bucket b true n).1 = Except.error StorageError.bucketNotEmpty := by
  have hpc : purgeCalls (serviceListVersionsPage b none n)
      = (b.versions.take n).map versionPair ++ (b.markers.take n).map markerPair := by
    rw [purgeCalls, listPage_none_versions, listPage_none_markers]
  have htr : n < b.versions.length ∨ n < b.markers.length :=
    (listPage_none_truncated b n).mp ht
  have hwf' : (b.versions.map versionPair ++ b.markers.map markerPair).Nodup := hwf
  rw [List.nodup_append] at hwf'
  obtain ⟨hndv, hndm, hdisj⟩ := hwf'
  have hres : (delete_all_versions_and_markers b n).versions ≠ []
      ∨ (delete_all_versions_and_markers b n).markers ≠ [] := by
    rcases htr with hv | hm
    · left
      have hsv : b.versions.get ⟨n, hv⟩ ∈ (delete_all_versions_and_markers b n).versions := by
        rw [delete_all_versions_and_markers, applyDeletes_versions, List.mem_filter]
        refine ⟨List.get_mem _ _ _, ?_⟩
        have hnotin : versionPair (b.versions.get ⟨n, hv⟩)
            ∉ purgeCalls (serviceListVersionsPage b none n) := by
          rw [hpc, List.mem_append]
          push_neg
          refine ⟨getElem_not_mem_map_take versionPair b.versions n hv hndv, ?_⟩
          intro hmem
          rw [List.map_take] at hmem
          exact hdisj (List.mem_map_of_mem _ (List.get_mem _ _ _))
            (List.take_subset _ _ hmem)
        simpa using hnotin
      exact List.ne_nil_of_mem hsv
    · right
      have hsm : b.markers.get ⟨n, hm⟩ ∈ (delete_all_versions_and_markers b n).markers := by
        rw [delete_all_versions_and_markers, applyDeletes_markers, List.mem_filter]
        refine ⟨List.get_mem _ _ _, ?_⟩
        have hnotin : markerPair (b.markers.get ⟨n, hm⟩)
            ∉ purgeCalls (serviceListVersionsPage b none n) := by
          rw [hpc, List.mem_append]
          push_neg
          constructor
          · intro hmem
            rw [List.map_take] at hmem
            exact hdisj (List.take_subset _ _ hmem)
              (List.mem_map_of_mem _ (List.get_mem _ _ _))
          · exact getElem_not_mem_map_take markerPair b.markers n hm hndm
        simpa using hnotin
      exact List.ne_nil_of_mem hsm
  refine ⟨calls_one_listing bucket_name _, hres, ?_⟩
  rcases hres with h | h <;>
    simp [s3_delete_bucket, serviceDeleteBucket, List.isEmpty_eq_false.mpr h]

/-- C9 witness: at a concrete bucket with two versions and a one-entry
page, the bucket deletion after the truncated purge fails. -/
theorem truncated_purge_leaves_residue_witness :
    (s3_delete_bucket sampleBucket true 1).1
      = Except.error StorageError.bucketNotEmpty :=
  (truncated_purge_leaves_residue sampleBucket BUCKET_NAME 1 (by decide) (by decide)).2.2
